import Mathlib

/-!
Verification of the ops-proxy request pipeline (src/ops_proxy/) against its
natural-language specification.  The Python code is shallowly embedded:
Python/JSON values become the inductive `PyVal`, the HTTP transport and the
file system become explicit oracle parameters, and every fallible Python
function becomes an `Except`- or `Option`-valued Lean function.  Wall-clock
timestamps (`received_at`, `created_at`) are omitted from the embedding:
no claim mentions them.
-/

namespace OpsProxy

/-- Model of a Python/JSON value as it flows through the pipeline.
`vObj` stands for a Python object that is not JSON-serializable
(`json.dumps` raises `TypeError` on it). -/
inductive PyVal where
  | vNone : PyVal
  | vBool (b : Bool) : PyVal
  | vInt (n : Int) : PyVal
  | vStr (s : String) : PyVal
  | vList (xs : List PyVal) : PyVal
  | vDict (kvs : List (String × PyVal)) : PyVal
  | vObj (tag : String) : PyVal

mutual

/-- Structural equality on Python values.  The pipeline only ever compares
values against string constants (`command == "send"`, `status == "pending"`,
`format_type != "plain"`), for which Python `==` and structural equality
agree. -/
def PyVal.beq : PyVal → PyVal → Bool
  | .vNone, .vNone => true
  | .vBool a, .vBool b => a == b
  | .vInt a, .vInt b => a == b
  | .vStr a, .vStr b => a == b
  | .vList a, .vList b => PyVal.beqL a b
  | .vDict a, .vDict b => PyVal.beqKV a b
  | .vObj a, .vObj b => a == b
  | _, _ => false

def PyVal.beqL : List PyVal → List PyVal → Bool
  | [], [] => true
  | a :: as, b :: bs => PyVal.beq a b && PyVal.beqL as bs
  | _, _ => false

def PyVal.beqKV : List (String × PyVal) → List (String × PyVal) → Bool
  | [], [] => true
  | (k, v) :: as, (k', v') :: bs => k == k' && PyVal.beq v v' && PyVal.beqKV as bs
  | _, _ => false

end

instance : BEq PyVal := ⟨PyVal.beq⟩

namespace PyVal

/-- Python truthiness (`if x:`): `None`, `False`, `0`, `""`, `[]`, `{}` are
falsy, everything else truthy. -/
def truthy : PyVal → Bool
  | vNone => false
  | vBool b => b
  | vInt n => n != 0
  | vStr s => s != ""
  | vList xs => !xs.isEmpty
  | vDict kvs => !kvs.isEmpty
  | vObj _ => true

/-- Is this value a Python `dict` (`isinstance(x, dict)`)? -/
def isDict : PyVal → Bool
  | vDict _ => true
  | _ => false

end PyVal

/-- `d.get(k)` on a dict carried as an insertion-ordered association list
(Python dicts have unique keys and preserve insertion order). -/
def assocGet (kvs : List (String × PyVal)) (k : String) : Option PyVal :=
  (kvs.find? (fun p => p.1 == k)).map (·.2)

/-- `d.get(k, default)`. -/
def assocGetD (kvs : List (String × PyVal)) (k : String) (d : PyVal) : PyVal :=
  (assocGet kvs k).getD d

/-- `d[k] = v`: replaces the value in place if the key exists (insertion
position kept), otherwise appends the new key. -/
def assocSet (kvs : List (String × PyVal)) (k : String) (v : PyVal) :
    List (String × PyVal) :=
  match kvs with
  | [] => [(k, v)]
  | (k', v') :: t => if k' == k then (k', v) :: t else (k', v') :: assocSet t k v

/-- Same dict-assignment on string-valued association lists (used for the
search sanitizer's `url_map`). -/
def assocSetS (kvs : List (String × String)) (k : String) (v : String) :
    List (String × String) :=
  match kvs with
  | [] => [(k, v)]
  | (k', v') :: t => if k' == k then (k', v) :: t else (k', v') :: assocSetS t k v

/-- Python `str(x)` for the scalar values the pipeline passes to `str`
(`chat_id` and `text` in the send translator).  The forms for containers are
abbreviated: no claim applies `str` to a container. -/
def pyStrOf : PyVal → String
  | .vNone => "None"
  | .vBool true => "True"
  | .vBool false => "False"
  | .vInt n => toString n
  | .vStr s => s
  | .vList _ => "[...]"
  | .vDict _ => "..."
  | .vObj t => t

/-! Structural (kernel-reducible) counterparts of the string searching
primitives the code uses (`in`, `str.replace`, `str.startswith`,
`str.split`); Lean's own `splitOn`/`replace`/`startsWith` are
position-based and are avoided so that concrete runs evaluate. -/

/-- Does `pat` occur as a prefix of `s`? -/
def startsWithSeq : List Char → List Char → Bool
  | [], _ => true
  | _ :: _, [] => false
  | p :: ps, c :: cs => p == c && startsWithSeq ps cs

/-- Python `pat in s` (substring containment) for a non-empty pattern. -/
def containsSeq (pat : List Char) : List Char → Bool
  | [] => startsWithSeq pat []
  | c :: cs => startsWithSeq pat (c :: cs) || containsSeq pat cs

/-- Python `s.replace(pat, rep)` - leftmost, non-overlapping - with a fuel
argument (passing `s.length + 1` makes it total on `s`). -/
def replaceSeq (pat rep : List Char) : Nat → List Char → List Char
  | 0, s => s
  | _ + 1, [] => []
  | fuel + 1, c :: cs =>
    if startsWithSeq pat (c :: cs) then
      rep ++ replaceSeq pat rep fuel ((c :: cs).drop pat.length)
    else c :: replaceSeq pat rep fuel cs

def strContains (s pat : String) : Bool := containsSeq pat.toList s.toList

def strReplace (s pat rep : String) : String :=
  String.mk (replaceSeq pat.toList rep.toList (s.toList.length + 1) s.toList)

def strStartsWith (s pre : String) : Bool := startsWithSeq pre.toList s.toList

/-- Python `s.split(sep)` for a single-character separator. -/
def splitChAux (sep : Char) (cur : List Char) : List Char → List String
  | [] => [String.mk cur.reverse]
  | c :: rest =>
    if c == sep then String.mk cur.reverse :: splitChAux sep [] rest
    else splitChAux sep (c :: cur) rest

def splitCh (sep : Char) (s : String) : List String :=
  splitChAux sep [] s.toList

/-- Python `s[:n]` (first `n` characters). -/
def pyTake (s : String) (n : Nat) : String := String.mk (s.toList.take n)

/-- Python `"sep".join(parts)`. -/
def joinLines (sep : String) : List String → String
  | [] => ""
  | [x] => x
  | x :: rest => x ++ sep ++ joinLines sep rest

/-- Lower-case hex digit. -/
def hexDigit (n : Nat) : Char :=
  if n < 10 then Char.ofNat (48 + n) else Char.ofNat (87 + n)

/-- Four lower-case hex digits, as in `json.dumps`'s `\uXXXX` escapes. -/
def hex4 (n : Nat) : String :=
  String.mk [hexDigit (n / 4096 % 16), hexDigit (n / 256 % 16),
             hexDigit (n / 16 % 16), hexDigit (n % 16)]

/-- Escape one character the way `json.dumps` (default `ensure_ascii=True`)
does inside a string literal. -/
def jsonEscapeChar (c : Char) : String :=
  if c = '"' then "\\\""
  else if c = '\\' then "\\\\"
  else if c = '\n' then "\\n"
  else if c = '\t' then "\\t"
  else if c = '\r' then "\\r"
  else if c = '\x08' then "\\b"
  else if c = '\x0c' then "\\f"
  else if c.toNat < 32 then "\\u" ++ hex4 c.toNat
  else if c.toNat < 128 then String.singleton c
  else if c.toNat < 65536 then "\\u" ++ hex4 c.toNat
  else
    "\\u" ++ hex4 (55296 + (c.toNat - 65536) / 1024) ++
    "\\u" ++ hex4 (56320 + (c.toNat - 65536) % 1024)

/-- A JSON string literal for `s`, as `json.dumps` renders it. -/
def jsonQuote (s : String) : String :=
  "\"" ++ String.join (s.toList.map jsonEscapeChar) ++ "\""

mutual

/-- `json.dumps(v)` with the default separators `", "` and `": "`;
`Option.none` models the `TypeError` raised on a non-serializable object. -/
def dumps : PyVal → Option String
  | .vNone => some "null"
  | .vBool true => some "true"
  | .vBool false => some "false"
  | .vInt n => some (toString n)
  | .vStr s => some (jsonQuote s)
  | .vList xs =>
    match dumpsList xs with
    | some parts => some ("[" ++ String.intercalate ", " parts ++ "]")
    | Option.none => Option.none
  | .vDict kvs =>
    match dumpsKvs kvs with
    | some parts => some ("\x7b" ++ String.intercalate ", " parts ++ "\x7d")
    | Option.none => Option.none
  | .vObj _ => Option.none

def dumpsList : List PyVal → Option (List String)
  | [] => some []
  | v :: t =>
    match dumps v, dumpsList t with
    | some s, some rest => some (s :: rest)
    | _, _ => Option.none

def dumpsKvs : List (String × PyVal) → Option (List String)
  | [] => some []
  | (k, v) :: t =>
    match dumps v, dumpsKvs t with
    | some s, some rest => some ((jsonQuote k ++ ": " ++ s) :: rest)
    | _, _ => Option.none

end

/-! ## Configuration and core data types (config.py, http_client.py) -/

/-- The slice of `Config` that the pipeline components read.  Field defaults
mirror `Config._default_config` / the property fall-backs in `config.py`.
`botToken`/`jinaApiKey` are `os.environ.get(...)`, hence `Option`. -/
structure Config where
  botToken : Option String := Option.none
  jinaApiKey : Option String := Option.none
  maxBodySize : Int := 1048576
  maxResponseSize : Int := 1048576
  maxSearchContentLength : Nat := 8192

/-- `if not x:` on an optional string (unset or empty are both falsy). -/
def optFalsy : Option String → Bool
  | Option.none => true
  | some s => s == ""

/-- The `Request` dataclass of `http_client.py`.  The `created_at` timestamp
is not modeled (wall clock, never inspected) and `status` is always
`"pending"` on every constructed request, so both fields are omitted. -/
structure Request where
  id : String
  method : String
  url : String
  headers : List (String × String)
  body : Option PyVal

/-- The `Response` dataclass of `http_client.py`, minus the `received_at`
wall-clock timestamp (never inspected by any claim). -/
structure Response where
  status : Option Int
  body : Option PyVal
  error : Option String

/-! ## Rules engine (rules.py) -/

/-- `ValidationResult` of `rules.py`. -/
structure ValidationResult where
  allowed : Bool
  reason : String

/-- A character allowed inside a URL scheme (`urllib.parse` scheme_chars:
ASCII letters, digits, `+`, `-`, `.`). -/
def schemeChar (c : Char) : Bool :=
  c.isAlphanum || c == '+' || c == '-' || c == '.'

/-- `urlparse(url).scheme`, as `Option`: the at-least-one-character prefix
before the first `:` when it starts with a letter and consists of scheme
characters, lower-cased; otherwise the scheme is the empty (falsy) string,
modeled as `Option.none`.  `urlparse` does not raise on strings, so the
`except` arm of `validate_url` is dead and not modeled. -/
def urlScheme (url : String) : Option String :=
  let cs := url.toList
  let pre := cs.takeWhile (fun c => c != ':')
  let rest := cs.dropWhile (fun c => c != ':')
  match pre, rest with
  | c :: _, _ :: _ =>
    if c.isAlpha && pre.all schemeChar then
      some (String.mk (pre.map Char.toLower))
    else Option.none
  | _, _ => Option.none

/-- `RulesEngine.validate_url`.  The compiled regex allow-list is abstracted
as a list of predicates (one per compiled pattern, `pattern.match`). -/
def validate_url (patterns : List (String → Bool)) (url : String) :
    ValidationResult :=
  match urlScheme url with
  | Option.none => ⟨false, "Missing URL scheme"⟩
  | some s =>
    if s != "http" && s != "https" then ⟨false, "Invalid scheme: " ++ s⟩
    else if patterns.any (fun p => p url) then ⟨true, "URL validated"⟩
    else ⟨false, "URL does not match allowed patterns"⟩

/-! ## Command translation (http_client.py) -/

/-- Result of a file-system access performed by the send translator
(`path.exists()` / `path.read_bytes()`); the bytes are carried as a
string. -/
inductive FileRes where
  | notFound : FileRes
  | ioError (msg : String) : FileRes
  | content (bytes : String) : FileRes

/-- The file system as an oracle from (already resolved) path strings.
`Path(...).expanduser().resolve()` is modeled as the identity: the claims
only use absolute paths. -/
def FileSys := String → FileRes

/-- An exception escaping the translator or the pre-`try` part of
`execute` (messages abbreviated; only the exception's occurrence and class
matter to the claims). -/
inductive PyErr where
  | attributeError (msg : String) : PyErr
  | typeError (msg : String) : PyErr
deriving DecidableEq, Repr

/-- `Path(p).name`: the final path component.  (Trailing-slash paths, which
pathlib normalizes, do not occur in the claims.) -/
def pathName (p : String) : String :=
  (splitCh '/' p).getLastD p

/-- Python `str.capitalize()`: first character upper-cased, the rest
lower-cased (`"markdown" -> "Markdown"`, `"HTML" -> "Html"`). -/
def pyCapitalize (s : String) : String :=
  match s.toList with
  | [] => ""
  | c :: rest => String.mk (c.toUpper :: rest.map Char.toLower)

/-- The multipart attachment built by the send translator:
`files = {"document": (path.name, file_content)}`. -/
abbrev TransFiles := String × String

/-- `HTTPClient._translate_send_command`.  Returns `.ok Option.none` for the
"not applicable" fall-through, `.error` when the Python code would raise
(`Path(non_str)` is a `TypeError`; `non_str.capitalize()` an
`AttributeError`) - both escape `execute`, which calls the translator
before its `try` block. -/
def translate_send_command (cfg : Config) (fs : FileSys) (request : Request)
    (payload : List (String × PyVal)) :
    Except PyErr (Option (Request × Option TransFiles)) :=
  let chat_id := assocGetD payload "chat_id" .vNone
  let text := assocGetD payload "text" .vNone
  let file_path := assocGetD payload "path" .vNone
  let format_type := assocGetD payload "format" (.vStr "plain")
  if !chat_id.truthy || (!text.truthy && !file_path.truthy) then .ok Option.none
  else if optFalsy cfg.botToken then .ok Option.none
  else
    let token := cfg.botToken.getD ""
    if file_path.truthy then
      match file_path with
      | .vStr p =>
        match fs p with
        | .notFound => .ok Option.none
        | .ioError _ => .ok Option.none
        | .content bytes =>
          let body0 := [("chat_id", PyVal.vStr (pyStrOf chat_id))]
          let body1 :=
            if text.truthy then body0 ++ [("caption", PyVal.vStr (pyStrOf text))]
            else body0
          if format_type != PyVal.vStr "plain" then
            match format_type with
            | .vStr f =>
              .ok (some
                ({ id := request.id, method := "POST",
                   url := "https://api.telegram.org/bot" ++ token ++ "/sendDocument",
                   headers := [],
                   body := some (.vDict (body1 ++ [("parse_mode", PyVal.vStr (pyCapitalize f))])) },
                 some (pathName p, bytes)))
            | _ => .error (.attributeError "capitalize")
          else
            .ok (some
              ({ id := request.id, method := "POST",
                 url := "https://api.telegram.org/bot" ++ token ++ "/sendDocument",
                 headers := [],
                 body := some (.vDict body1) },
               some (pathName p, bytes)))
      | _ => .error (.typeError "argument should be a str or an os.PathLike object")
    else
      let body0 := [("chat_id", PyVal.vStr (pyStrOf chat_id)),
                    ("text", PyVal.vStr (pyStrOf text))]
      if format_type != PyVal.vStr "plain" then
        match format_type with
        | .vStr f =>
          .ok (some
            ({ id := request.id, method := "POST",
               url := "https://api.telegram.org/bot" ++ token ++ "/sendMessage",
               headers := [("Content-Type", "application/json")],
               body := some (.vDict (body0 ++ [("parse_mode", PyVal.vStr (pyCapitalize f))])) },
             Option.none))
        | _ => .error (.attributeError "capitalize")
      else
        .ok (some
          ({ id := request.id, method := "POST",
             url := "https://api.telegram.org/bot" ++ token ++ "/sendMessage",
             headers := [("Content-Type", "application/json")],
             body := some (.vDict body0) },
           Option.none))

/-- Upper-case hex digit (percent-encoding uses upper case). -/
def hexDigitU (n : Nat) : Char :=
  if n < 10 then Char.ofNat (48 + n) else Char.ofNat (55 + n)

/-- UTF-8 bytes of a character. -/
def utf8Bytes (c : Char) : List Nat :=
  let n := c.toNat
  if n < 128 then [n]
  else if n < 2048 then [192 + n / 64, 128 + n % 64]
  else if n < 65536 then [224 + n / 4096, 128 + n / 64 % 64, 128 + n % 64]
  else [240 + n / 262144, 128 + n / 4096 % 64, 128 + n / 64 % 64, 128 + n % 64]

/-- `%XX` encoding of one byte. -/
def pctByte (b : Nat) : String :=
  String.mk ['%', hexDigitU (b / 16), hexDigitU (b % 16)]

/-- `urllib.parse.quote(s)` with the default `safe='/'`: ASCII
alphanumerics and `_.-~/` pass through, every other character is
percent-encoded byte-wise. -/
def urlQuote (s : String) : String :=
  String.join (s.toList.map (fun c =>
    if (c.isAlphanum && c.toNat < 128) ||
       c == '_' || c == '.' || c == '-' || c == '~' || c == '/' then
      String.singleton c
    else String.join ((utf8Bytes c).map pctByte)))

/-- `HTTPClient._translate_search_command`.  `urllib.parse.quote` on a
non-string query raises a `TypeError` (escaping `execute`). -/
def translate_search_command (cfg : Config) (request : Request)
    (payload : List (String × PyVal)) :
    Except PyErr (Option (Request × Option TransFiles)) :=
  let query := assocGetD payload "query" .vNone
  if !query.truthy then .ok Option.none
  else if optFalsy cfg.jinaApiKey then .ok Option.none
  else
    let key := cfg.jinaApiKey.getD ""
    match query with
    | .vStr q =>
      .ok (some
        ({ id := request.id, method := "GET",
           url := "https://s.jina.ai/?q=" ++ urlQuote q,
           headers := [("Authorization", "Bearer " ++ key)],
           body := Option.none },
         Option.none))
    | _ => .error (.typeError "quote() doesn't support this type")

/-- `HTTPClient._translate_read_command`.  `.startswith` on a non-string
url payload raises an `AttributeError` (escaping `execute`). -/
def translate_read_command (cfg : Config) (request : Request)
    (payload : List (String × PyVal)) :
    Except PyErr (Option (Request × Option TransFiles)) :=
  let url := assocGetD payload "url" .vNone
  if !url.truthy then .ok Option.none
  else
    match url with
    | .vStr u =>
      if !(strStartsWith u "http://" || strStartsWith u "https://") then .ok Option.none
      else if optFalsy cfg.jinaApiKey then .ok Option.none
      else
        let key := cfg.jinaApiKey.getD ""
        .ok (some
          ({ id := request.id, method := "POST",
             url := "https://r.jina.ai/",
             headers := [("Authorization", "Bearer " ++ key),
                         ("Content-Type", "application/json"),
                         ("Accept", "application/json")],
             body := some (.vDict [("url", PyVal.vStr u)]) },
           Option.none))
    | _ => .error (.attributeError "startswith")

/-- `HTTPClient._translate_unified_format`: dispatch on
`body.command` / `body.payload`; `.ok Option.none` is the
"not a unified-format request" pass-through. -/
def translate_unified_format (cfg : Config) (fs : FileSys) (request : Request) :
    Except PyErr (Option (Request × Option TransFiles)) :=
  match request.body with
  | Option.none => .ok Option.none
  | some b =>
    if !b.truthy || !b.isDict then .ok Option.none
    else
      match b with
      | .vDict kvs =>
        let command := assocGetD kvs "command" .vNone
        let payload := assocGetD kvs "payload" .vNone
        if !command.truthy || !payload.truthy || !payload.isDict then .ok Option.none
        else
          match payload with
          | .vDict pkvs =>
            if command == PyVal.vStr "send" then
              translate_send_command cfg fs request pkvs
            else if command == PyVal.vStr "search" then
              translate_search_command cfg request pkvs
            else if command == PyVal.vStr "read" then
              translate_read_command cfg request pkvs
            else .ok Option.none
          | _ => .ok Option.none
      | _ => .ok Option.none

/-! ## Response sanitizers (http_client.py) -/

/-- Python `\s` on the ASCII range (the sanitizer inputs in the claims are
ASCII): space, tab, newline, carriage return, vertical tab, form feed. -/
def isPySpace (c : Char) : Bool :=
  c == ' ' || c == '\t' || c == '\n' || c == '\r' || c == '\x0b' || c == '\x0c'

/-- Python `str.strip()` restricted to the same whitespace set. -/
def pyStrip (s : String) : String :=
  String.mk (((s.toList.dropWhile isPySpace).reverse.dropWhile isPySpace).reverse)

/-- Does `\s*\[` match at the head of `u` (used by the lazy stop condition of
the title regex): the first non-whitespace character is `[`. -/
def wsThenLBracket (u : List Char) : Bool :=
  match u.dropWhile isPySpace with
  | '[' :: _ => true
  | _ => false

/-- The lazy group `(.+?)(?:\s*\[|$)` applied to the non-empty remainder
`t`: the shortest non-empty prefix that is followed by `\s*\[`, or the whole
remainder when no such prefix exists (the `$` alternative). -/
def titleCaptureAux (done : List Char) : List Char → List Char
  | [] => done
  | c :: rs =>
    if wsThenLBracket (c :: rs) then done
    else titleCaptureAux (done ++ [c]) rs

def titleCapture (t : List Char) : List Char :=
  match t with
  | [] => []
  | c :: rs => titleCaptureAux [c] rs

/-- The mandatory part of the title pattern
`\[?(\d+)\]?\.?\s*Title:\s*(.+?)(?:\s*\[|$)` matched at the head of `m`;
returns the capture of group 2.  When everything after `Title:` is
whitespace, the regex engine backtracks `\s*` by one character and the lazy
group captures that single whitespace character (stripped to `""` by the
caller); when nothing at all follows `Title:` there is no match. -/
def matchTitleTail (m : List Char) : Option (List Char) :=
  let m1 := match m with | '[' :: r => r | _ => m
  let ds := m1.takeWhile Char.isDigit
  if ds.isEmpty then Option.none
  else
    let m2 := m1.dropWhile Char.isDigit
    let m3 := match m2 with | ']' :: r => r | _ => m2
    let m4 := match m3 with | '.' :: r => r | _ => m3
    let m5 := m4.dropWhile isPySpace
    match m5 with
    | 'T' :: 'i' :: 't' :: 'l' :: 'e' :: ':' :: r =>
      if r.isEmpty then Option.none
      else
        let t := r.dropWhile isPySpace
        if t.isEmpty then some (r.reverse.take 1)
        else some (titleCapture t)
    | _ => Option.none

/-- `re.match(r'(?:##?\s*)?\[?(\d+)\]?\.?\s*Title:\s*(.+?)(?:\s*\[|$)', line)`,
returning group 2.  The optional hash prefix is tried greedily (`##` then
`#` then nothing), exactly as the backtracking engine does; after the
consumed hashes `\s*` is exact because the next required character is never
whitespace. -/
def titleMatch (line : String) : Option String :=
  let cs := line.toList
  let cands : List (List Char) :=
    (match cs with
     | '#' :: '#' :: r => [r.dropWhile isPySpace]
     | _ => []) ++
    (match cs with
     | '#' :: r => [r.dropWhile isPySpace]
     | _ => []) ++
    [cs]
  (cands.findSome? matchTitleTail).map String.mk

/-- `https?://[^\s\)]+` matched right after the `URL Source:` marker
(`\s*` skipped first); the character run after the scheme is greedy and must
be non-empty. -/
def urlAfterMarker (u : List Char) : Option (List Char) :=
  let v := u.dropWhile isPySpace
  match v with
  | 'h' :: 't' :: 't' :: 'p' :: 's' :: ':' :: '/' :: '/' :: rest =>
    let run := rest.takeWhile (fun c => !isPySpace c && c != ')')
    if run.isEmpty then Option.none
    else some (['h', 't', 't', 'p', 's', ':', '/', '/'] ++ run)
  | 'h' :: 't' :: 't' :: 'p' :: ':' :: '/' :: '/' :: rest =>
    let run := rest.takeWhile (fun c => !isPySpace c && c != ')')
    if run.isEmpty then Option.none
    else some (['h', 't', 't', 'p', ':', '/', '/'] ++ run)
  | _ => Option.none

/-- `re.search(r'URL Source:\s*(https?://[^\s\)]+)', line)`: scan start
positions left to right; at each occurrence of the literal marker try the
URL part, else continue one position further. -/
def urlSearchAux (cs : List Char) : Option (List Char) :=
  match cs with
  | [] => Option.none
  | _ :: rest =>
    match cs with
    | 'U' :: 'R' :: 'L' :: ' ' :: 'S' :: 'o' :: 'u' :: 'r' :: 'c' :: 'e' :: ':' :: after =>
      match urlAfterMarker after with
      | some url => some url
      | Option.none => urlSearchAux rest
    | _ => urlSearchAux rest

def urlSearch (line : String) : Option String :=
  (urlSearchAux line.toList).map String.mk

/-- The per-line scan state of `_sanitize_search_response`:
`current_title` and the insertion-ordered `url_map` (url -> title). -/
structure ScanState where
  current_title : String
  url_map : List (String × String)

/-- One iteration of the `for line in lines` loop. -/
def scanLine (st : ScanState) (line : String) : ScanState :=
  let st1 :=
    match titleMatch line with
    | some t => { st with current_title := pyStrip t }
    | Option.none => st
  match urlSearch line with
  | some url =>
    if st1.current_title != "" then
      { current_title := "", url_map := assocSetS st1.url_map url st1.current_title }
    else st1
  | Option.none => st1

/-- The scan over all lines, starting from an empty title and map. -/
def scanLines (lines : List String) : ScanState :=
  lines.foldl scanLine ⟨"", []⟩

/-- The numbered `title` + indented `url` rendering
(`for i, (url, title) in enumerate(url_map.items(), 1)`). -/
def renderPairs (pairs : List (String × String)) : List String :=
  (pairs.enum.map (fun p =>
    [toString (p.1 + 1) ++ ". " ++ p.2.2, "   " ++ p.2.1, ""])).flatten

/-- `HTTPClient._sanitize_search_response`. -/
def sanitize_search_response (cfg : Config) (response_body : String) : PyVal :=
  let max_length := cfg.maxSearchContentLength
  let st := scanLines (splitCh '\n' response_body)
  let output := renderPairs st.url_map
  let output := if output.isEmpty then [pyTake response_body max_length] else output
  let final0 := joinLines "\n" output
  let final_content :=
    if final0.length > max_length then pyTake final0 max_length ++ "\n\n[truncated]"
    else final0
  .vDict [("ok", .vBool true),
          ("result", .vDict
            [("content", .vStr final_content),
             ("type", .vStr "search"),
             ("urls", .vList (st.url_map.map (fun p => PyVal.vStr p.1)))])]

/-- `len(x)` where defined; `Option.none` models the `TypeError` raised on
values without a length. -/
def pyLen : PyVal → Option Nat
  | .vStr s => some s.length
  | .vList xs => some xs.length
  | .vDict kvs => some kvs.length
  | _ => Option.none

/-- The `{ok, result}` envelope of the read sanitizer. -/
def readEnvelope (content : PyVal) : PyVal :=
  .vDict [("ok", .vBool true),
          ("result", .vDict [("content", content), ("type", .vStr "read")])]

/-- `HTTPClient._sanitize_read_response`.  `parsed` is the outcome of
`json.loads(response_body)` (`Option.none` = `JSONDecodeError`, which the
function catches by falling back to the raw text).  A `.error` result
models an exception other than `JSONDecodeError` (raised inside `execute`'s
`try`, where it becomes a generic error response). -/
def sanitize_read_response (cfg : Config) (parsed : Option PyVal)
    (response_body : String) : Except String PyVal :=
  let contentE : Except String PyVal :=
    match parsed with
    | Option.none => .ok (.vStr response_body)
    | some (.vDict kvs) =>
      match assocGetD kvs "data" (.vDict []) with
      | .vDict dkvs => .ok (assocGetD dkvs "content" (.vStr response_body))
      | _ => .error "AttributeError: get"
    | some _ => .error "AttributeError: get"
  match contentE with
  | .error e => .error e
  | .ok content =>
    match pyLen content with
    | Option.none => .error "TypeError: len"
    | some L =>
      if L > cfg.maxSearchContentLength then
        match content with
        | .vStr c =>
          .ok (readEnvelope (.vStr
            (pyTake c cfg.maxSearchContentLength ++ "\n\n[content truncated]")))
        | _ => .error "TypeError: can only concatenate"
      else .ok (readEnvelope content)

/-! ## The outbound executor (HTTPClient.execute) -/

/-- The transport-level outcome of one `client.request(...)` call, supplied
as an oracle.  `parsed` is the JSON parse of `text` as `response.json()`
would produce it (`Option.none` = decode failure, raised inside the `try`).
`contentLength` is the `content-length` header as an integer; `Option.none`
covers a missing or empty header (a non-numeric header would raise in
`int(...)` inside the `try`, which the `exc` outcome models). -/
inductive NetOutcome where
  | timeout (msg : String) : NetOutcome
  | httpError (msg : String) : NetOutcome
  | exc (msg : String) : NetOutcome
  | success (statusCode : Int) (contentLength : Option Int) (text : String)
      (parsed : Option PyVal) : NetOutcome

/-- `httpx.Client.request` rejects URLs without an `http(s)://` protocol
with `UnsupportedProtocol` (a subclass of `httpx.HTTPError`) before any
network traffic; otherwise the oracle outcome happens. -/
def clientRequest (url : String) (net : NetOutcome) : NetOutcome :=
  if strStartsWith url "http://" || strStartsWith url "https://" then net
  else .httpError "Request URL is missing an 'http://' or 'https://' protocol."

/-- `execute`'s result together with whether control reached the
`client.request(...)` call. -/
structure ExecOut where
  resp : Response
  networkCalled : Bool

/-- `f"Body size {body_size} exceeds limit {max_size}"`. -/
def bodySizeErr (n m : Int) : String :=
  "Body size " ++ toString n ++ " exceeds limit " ++ toString m

/-- `f"Response size {content_length} exceeds limit {max_response_size}"`. -/
def respSizeErr (n m : Int) : String :=
  "Response size " ++ toString n ++ " exceeds limit " ++ toString m

/-- The tail of `execute`'s `try` block after the response-size check:
sanitization / JSON parsing of the response body. -/
def execFinish (cfg : Config) (original_command : PyVal) (code : Int)
    (text : String) (parsed : Option PyVal) : ExecOut :=
  if original_command == PyVal.vStr "search" then
    ⟨⟨some code, some (sanitize_search_response cfg text), Option.none⟩, true⟩
  else if original_command == PyVal.vStr "read" then
    match sanitize_read_response cfg parsed text with
    | .ok body => ⟨⟨some code, some body, Option.none⟩, true⟩
    | .error e => ⟨⟨Option.none, Option.none, some e⟩, true⟩
  else
    if text != "" then
      match parsed with
      | some j => ⟨⟨some code, some j, Option.none⟩, true⟩
      | Option.none =>
        ⟨⟨Option.none, Option.none, some ("Expecting value: " ++ text)⟩, true⟩
    else ⟨⟨some code, Option.none, Option.none⟩, true⟩

/-- The body of `execute`'s `try` block from the `client.request` result
on: the response-size check, then sanitization/parsing (`execFinish`). -/
def executeNet (cfg : Config) (original_command : PyVal) : NetOutcome → ExecOut
  | .timeout m => ⟨⟨Option.none, Option.none, some ("Timeout: " ++ m)⟩, true⟩
  | .httpError m => ⟨⟨Option.none, Option.none, some ("HTTP error: " ++ m)⟩, true⟩
  | .exc m => ⟨⟨Option.none, Option.none, some m⟩, true⟩
  | .success code clen text parsed =>
    match clen with
    | some L =>
      if L > cfg.maxResponseSize then
        ⟨⟨some code, Option.none, some (respSizeErr L cfg.maxResponseSize)⟩, true⟩
      else execFinish cfg original_command code text parsed
    | Option.none => execFinish cfg original_command code text parsed

/-- The body-size check of `execute` (runs before the `try` block):
`.ok Option.none` when the check passes or the body is falsy, `.ok (some _)`
with the short-circuit response when the serialized body exceeds the
ceiling, `.error` when `json.dumps` raises on a non-serializable body. -/
def bodySizeCheck (cfg : Config) : Option PyVal → Except PyErr (Option ExecOut)
  | some b =>
    if b.truthy then
      match dumps b with
      | Option.none => .error (.typeError "Object is not JSON serializable")
      | some s =>
        if (s.utf8ByteSize : Int) > cfg.maxBodySize then
          .ok (some ⟨⟨Option.none, Option.none,
            some (bodySizeErr s.utf8ByteSize cfg.maxBodySize)⟩, false⟩)
        else .ok Option.none
    else .ok Option.none
  | Option.none => .ok Option.none

/-- `HTTPClient.execute`.  The translator call, the `<token>` substitution
and the body-size check run before the `try` block, so a `.error` result
models an exception escaping `execute`; everything from the network call on
is inside the `try` and always produces a `Response`. -/
def execute (cfg : Config) (fs : FileSys) (net : NetOutcome)
    (request : Request) : Except PyErr ExecOut :=
  let original_command :=
    match request.body with
    | some b =>
      if b.truthy && b.isDict then
        match b with
        | .vDict kvs => assocGetD kvs "command" .vNone
        | _ => .vNone
      else .vNone
    | Option.none => .vNone
  match translate_unified_format cfg fs request with
  | .error e => .error e
  | .ok unified =>
    let rf : Request × Option TransFiles :=
      match unified with
      | some rfv => rfv
      | Option.none => (request, Option.none)
    let request' := rf.1
    let url0 := request'.url
    let url :=
      if !(optFalsy cfg.botToken) && strContains url0 "<token>" then
        strReplace url0 "<token>" (cfg.botToken.getD "")
      else url0
    match bodySizeCheck cfg request'.body with
    | .error e => .error e
    | .ok (some out) => .ok out
    | .ok Option.none =>
      .ok (executeNet cfg original_command (clientRequest url net))

/-! ## Telegram long poller (telegram.py) -/

/-- One entry of `getUpdates`' `result` array.  `update_id` models
`update.get("update_id", 0)` (the claims only use integer ids; a non-integer
id would raise inside `poll`'s `try`, which the `exc` outcome models).
`message` is `update.get("message", {})` as a dict: the empty list covers
both an absent and an empty `message`, which `if message:` treats alike. -/
structure TgUpdate where
  update_id : Option Int
  message : List (String × PyVal)

/-- `update.get("update_id", 0)`. -/
def uidOf (u : TgUpdate) : Int := u.update_id.getD 0

/-- Outcome of the `getUpdates` long-poll HTTP call (oracle).  `resp`
carries the platform's `ok` flag and `result` array;
`raise_for_status` failures are `httpError`. -/
inductive TgOutcome where
  | timeout : TgOutcome
  | httpError (msg : String) : TgOutcome
  | exc (msg : String) : TgOutcome
  | resp (ok : Bool) (result : List TgUpdate) : TgOutcome

/-- Everything one `poll()` call produces: its return value, the new offset,
what was written to the inbox file (if anything) and whether the
notification callback ran. -/
structure PollResult where
  messages : List (List (String × PyVal))
  offset : Int
  saved : Option (List (List (String × PyVal)))
  callbackCalled : Bool

/-- One iteration of the `for update in updates` loop: append the
`update_id`-tagged message when the message dict is non-empty, then advance
the offset when `update_id >= self._offset`. -/
def pollLoopStep (acc : List (List (String × PyVal)) × Int) (u : TgUpdate) :
    List (List (String × PyVal)) × Int :=
  let update_id := uidOf u
  let msgs :=
    if !u.message.isEmpty then
      acc.1 ++ [assocSet u.message "update_id" (.vInt update_id)]
    else acc.1
  let off := if update_id ≥ acc.2 then update_id + 1 else acc.2
  (msgs, off)

/-- `TelegramLongPoller.poll`, as a function of the current offset and the
transport outcome. -/
def poll (offset : Int) (o : TgOutcome) : PollResult :=
  match o with
  | .timeout => ⟨[], offset, Option.none, false⟩
  | .httpError _ => ⟨[], offset, Option.none, false⟩
  | .exc _ => ⟨[], offset, Option.none, false⟩
  | .resp ok result =>
    if !ok then ⟨[], offset, Option.none, false⟩
    else if result.isEmpty then ⟨[], offset, Option.none, false⟩
    else
      let mo := result.foldl pollLoopStep ([], offset)
      if !mo.1.isEmpty then ⟨mo.1, mo.2, some mo.1, true⟩
      else ⟨mo.1, mo.2, Option.none, false⟩

/-- The offset after a sequence of successful (`ok`) poll batches. -/
def pollBatches (offset : Int) (batches : List (List TgUpdate)) : Int :=
  batches.foldl (fun off b => (poll off (.resp true b)).offset) offset

/-- `TelegramLongPoller._save_messages`: the inbox document written
(`{"messages": messages}`, whole-file overwrite).  `json.dump(default=str)`
followed by `json.load` round-trips the dicts and integers inspected by
`_load_offset` identically, so the file is modeled as holding the document
value itself. -/
def save_messages (messages : List (List (String × PyVal))) : PyVal :=
  .vDict [("messages", .vList (messages.map PyVal.vDict))]

/-- The inbox file as `_load_offset` finds it. -/
inductive InboxFile where
  | missing : InboxFile
  | badJson : InboxFile
  | doc (v : PyVal) : InboxFile

/-- `u.get("update_id", 0)` inside the `max` generator of `_load_offset`:
`Option.none` models the `AttributeError`/`TypeError` raised (and not
caught) on a non-dict element or a non-integer id. -/
def updId : PyVal → Option Int
  | .vDict kvs =>
    match assocGetD kvs "update_id" (.vInt 0) with
    | .vInt n => some n
    | _ => Option.none
  | _ => Option.none

/-- `max(u.get("update_id", 0) for u in updates)` over a non-empty list. -/
def maxIds : List PyVal → Option Int
  | [] => Option.none
  | [u] => updId u
  | u :: rest =>
    match updId u, maxIds rest with
    | some a, some b => some (max a b)
    | _, _ => Option.none

/-- `TelegramLongPoller._load_offset`: 0 for a missing file, JSON or IO
error, or an empty/falsy `messages` value; otherwise
`max(update_id) + 1`.  `Option.none` models an uncaught exception (those
are not in the function's `except` clause). -/
def load_offset (f : InboxFile) : Option Int :=
  match f with
  | .missing => some 0
  | .badJson => some 0
  | .doc v =>
    match v with
    | .vDict kvs =>
      let updates := assocGetD kvs "messages" (.vList [])
      if !updates.truthy then some 0
      else
        match updates with
        | .vList us => (maxIds us).map (· + 1)
        | _ => Option.none
    | _ => Option.none

/-! ## Queue file watcher (watcher.py) -/

/-- `RequestFileHandler` state: `_last_mtime` (initially 0).  `st_mtime` is
modeled as an integer timestamp; only its equality/ordering matters. -/
structure WatchState where
  lastMtime : Int

/-- A watchdog file-system event. -/
structure FsEvent where
  isDirectory : Bool
  srcPath : String

/-- What reading the queue file yields at the moment of the event. -/
inductive QueueFileRead where
  | missing : QueueFileRead
  | badJson : QueueFileRead
  | doc (requests : List (List (String × PyVal))) : QueueFileRead

/-- `RequestFileHandler._read_requests`: the pending batch handed to the
callback (`Option.none` when the callback does not fire: missing file,
malformed JSON, or no pending entries). -/
def read_requests (f : QueueFileRead) :
    Option (List (List (String × PyVal))) :=
  match f with
  | .missing => Option.none
  | .badJson => Option.none
  | .doc rs =>
    let pending :=
      rs.filter (fun r => assocGetD r "status" .vNone == PyVal.vStr "pending")
    if !pending.isEmpty then some pending else Option.none

/-- `RequestFileHandler.on_modified`.  `stat` is
`requests_file.stat().st_mtime` (`Option.none` = `OSError`, swallowed by
the bare `except OSError: pass`); `file` is the queue file's content.
`Path(event.src_path) == self.requests_file` is modeled as string equality
(the daemon always passes one canonical absolute path).  Returns the new
handler state and the batch passed to the callback, if it fired. -/
def on_modified (requests_file : String) (st : WatchState) (ev : FsEvent)
    (stat : Option Int) (file : QueueFileRead) :
    WatchState × Option (List (List (String × PyVal))) :=
  if ev.isDirectory then (st, Option.none)
  else
    match stat with
    | some m =>
      if m == st.lastMtime then (st, Option.none)
      else
        let st' : WatchState := ⟨m⟩
        if ev.srcPath == requests_file then (st', read_requests file)
        else (st', Option.none)
    | Option.none =>
      if ev.srcPath == requests_file then (st, read_requests file)
      else (st, Option.none)

/-! ## Daemon request processing (cli.py) -/

/-- `d[k] = v` on the responses mapping (keys are the entries' `id` values,
compared with Python `==`, modeled by structural `beq`). -/
def assocSetP (kvs : List (PyVal × PyVal)) (k : PyVal) (v : PyVal) :
    List (PyVal × PyVal) :=
  match kvs with
  | [] => [(k, v)]
  | (k', v') :: t => if k' == k then (k', v) :: t else (k', v') :: assocSetP t k v

/-- The queue document's entry list and the responses document's mapping,
i.e. the persistent state `_process_requests` reads and writes.  I/O errors
on these files are logged-and-ignored in the code and are not modeled: the
claims concern the success path of persistence. -/
structure DaemonState where
  requests : List (List (String × PyVal))
  responses : List (PyVal × PyVal)

/-- `OpsProxyDaemon._update_request_status`: set the status of the first
entry whose `id` equals `rid` (first match wins). -/
def update_request_status (reqs : List (List (String × PyVal))) (rid : PyVal)
    (status : String) : List (List (String × PyVal)) :=
  match reqs with
  | [] => []
  | r :: t =>
    if assocGetD r "id" .vNone == rid then
      assocSet r "status" (.vStr status) :: t
    else r :: update_request_status t rid status

/-- The response record `_process_requests` stores under the entry's id
(`received_at` is a wall-clock timestamp, carried as a placeholder). -/
def respRecord (resp : Response) : PyVal :=
  .vDict [("status", match resp.status with | some n => .vInt n | Option.none => .vNone),
          ("body", resp.body.getD .vNone),
          ("received_at", .vStr "<timestamp>"),
          ("error", match resp.error with | some e => .vStr e | Option.none => .vNone)]

/-- The `Request` built from a queue entry in `_process_requests`:
`req.get("method", "POST")`, `req.get("url", "")`, `req.get("headers", {})`,
`req.get("body")`.  Non-string method/url/header values only reach the
transport layer and are absorbed by the net oracle; the entry id is only
logged, its original value is kept as the response key. -/
def requestOfEntry (entry : List (String × PyVal)) : Request :=
  { id := pyStrOf (assocGetD entry "id" .vNone),
    method := match assocGetD entry "method" (.vStr "POST") with
              | .vStr s => s
              | _ => "POST",
    url := match assocGetD entry "url" (.vStr "") with
           | .vStr s => s
           | _ => "",
    headers := match assocGetD entry "headers" (.vDict []) with
               | .vDict kvs => kvs.filterMap (fun p =>
                   match p.2 with
                   | .vStr s => some (p.1, s)
                   | _ => Option.none)
               | _ => [],
    body := assocGet entry "body" }

/-- `dict.update` of the freshly collected responses into the responses
file's existing mapping (`_save_responses`). -/
def respUpdate (old : List (PyVal × PyVal)) (new : List (PyVal × PyVal)) :
    List (PyVal × PyVal) :=
  new.foldl (fun acc kv => assocSetP acc kv.1 kv.2) old

/-- The entry loop of `_process_requests`; `nets i` is the transport
outcome of the `i`-th batch entry's execution.  A `.error` result models an
exception escaping `execute` and aborting the loop (nothing later is
persisted). -/
def processAux (cfg : Config) (fs : FileSys) (nets : Nat → NetOutcome) :
    Nat → DaemonState → List (PyVal × PyVal) →
    List (List (String × PyVal)) →
    Except PyErr (DaemonState × List (PyVal × PyVal))
  | _, st, acc, [] => .ok (st, acc)
  | i, st, acc, entry :: rest =>
    let rid := assocGetD entry "id" .vNone
    if !rid.truthy then processAux cfg fs nets (i + 1) st acc rest
    else
      match execute cfg fs (nets i) (requestOfEntry entry) with
      | .error e => .error e
      | .ok out =>
        let acc' := assocSetP acc rid (respRecord out.resp)
        let status := if out.resp.error = Option.none then "completed" else "failed"
        let st' : DaemonState :=
          { st with requests := update_request_status st.requests rid status }
        processAux cfg fs nets (i + 1) st' acc' rest

/-- `OpsProxyDaemon._process_requests`: process the batch sequentially,
then merge the collected responses into the responses file (only when at
least one was collected). -/
def process_requests (cfg : Config) (fs : FileSys) (nets : Nat → NetOutcome)
    (st : DaemonState) (batch : List (List (String × PyVal))) :
    Except PyErr DaemonState :=
  match processAux cfg fs nets 0 st [] batch with
  | .error e => .error e
  | .ok (st', acc) =>
    if acc.isEmpty then .ok st'
    else .ok { st' with responses := respUpdate st'.responses acc }

/-- Python `max` over a non-empty integer list (used to state the
round-trip and offset claims). -/
def pyMaxI : List Int → Option Int
  | [] => Option.none
  | x :: xs => some (xs.foldl max x)

/-! ## Helper lemmas -/

theorem pollLoopStep_snd (acc : List (List (String × PyVal)) × Int)
    (u : TgUpdate) : (pollLoopStep acc u).2 = max acc.2 (uidOf u + 1) := by
  unfold pollLoopStep
  dsimp only
  split
  · omega
  · omega

theorem foldl_pollLoopStep (us : List TgUpdate)
    (ms : List (List (String × PyVal))) (off : Int) :
    us.foldl pollLoopStep (ms, off) =
      (ms ++ (us.filter (fun u => !u.message.isEmpty)).map
          (fun u => assocSet u.message "update_id" (.vInt (uidOf u))),
       us.foldl (fun o u => max o (uidOf u + 1)) off) := by
  induction us generalizing ms off with
  | nil => simp
  | cons u t ih =>
    simp only [List.foldl_cons, List.filter_cons]
    rw [ih]
    unfold pollLoopStep
    dsimp only
    by_cases hm : u.message.isEmpty
    · simp [hm]
      congr 1
      omega
    · simp [hm]
      congr 1
      omega

theorem poll_resp_true (off : Int) (us : List TgUpdate) :
    poll off (.resp true us) =
      (let msgs := (us.filter (fun u => !u.message.isEmpty)).map
         (fun u => assocSet u.message "update_id" (.vInt (uidOf u)));
       let off' := us.foldl (fun o u => max o (uidOf u + 1)) off;
       if msgs.isEmpty then ⟨[], off', Option.none, false⟩
       else ⟨msgs, off', some msgs, true⟩) := by
  unfold poll
  cases us with
  | nil => simp
  | cons u t =>
    have h1 : (u :: t).isEmpty = false := rfl
    simp only [h1, Bool.not_true, Bool.false_eq_true, if_false]
    rw [foldl_pollLoopStep]
    dsimp only
    by_cases hm : (((u :: t).filter (fun u => !u.message.isEmpty)).map
        (fun u => assocSet u.message "update_id" (.vInt (uidOf u)))).isEmpty
    · rw [List.isEmpty_iff] at hm
      simp [hm]
    · have hm' : ¬((u :: t).filter (fun u => !u.message.isEmpty)).map
          (fun u => assocSet u.message "update_id" (.vInt (uidOf u))) = [] := by
        intro h
        rw [← List.isEmpty_iff] at h
        exact hm h
      simp [hm']

theorem poll_resp_true_offset (off : Int) (us : List TgUpdate) :
    (poll off (.resp true us)).offset =
      us.foldl (fun o u => max o (uidOf u + 1)) off := by
  rw [poll_resp_true]
  dsimp only
  split <;> rfl

theorem foldl_max_le_init (xs : List Int) (a : Int) :
    a ≤ xs.foldl (fun o u => max o u) a := by
  induction xs generalizing a with
  | nil => simp
  | cons x t ih =>
    simp only [List.foldl_cons]
    exact le_trans (le_max_left a x) (ih (max a x))

theorem foldl_maxStep_le_init (xs : List TgUpdate) (a : Int) :
    a ≤ xs.foldl (fun o u => max o (uidOf u + 1)) a := by
  induction xs generalizing a with
  | nil => simp
  | cons x t ih =>
    simp only [List.foldl_cons]
    exact le_trans (le_max_left a (uidOf x + 1)) (ih (max a (uidOf x + 1)))

theorem foldl_maxStep_mem_le (xs : List TgUpdate) (a : Int) (u : TgUpdate)
    (hu : u ∈ xs) :
    uidOf u + 1 ≤ xs.foldl (fun o v => max o (uidOf v + 1)) a := by
  induction xs generalizing a with
  | nil => cases hu
  | cons x t ih =>
    simp only [List.foldl_cons]
    rcases List.mem_cons.mp hu with h | h
    · subst h
      exact le_trans (le_max_right a (uidOf u + 1))
        (foldl_maxStep_le_init t (max a (uidOf u + 1)))
    · exact ih (max a (uidOf x + 1)) h

theorem foldl_max_shift (t : List Int) (a b : Int) :
    t.foldl (fun o u => max o u) (max a b) =
      max a (t.foldl (fun o u => max o u) b) := by
  induction t generalizing b with
  | nil => simp
  | cons c t ih =>
    simp only [List.foldl_cons]
    rw [max_assoc, ih (max b c)]

theorem foldl_maxsucc_shift (t : List Int) (a : Int) :
    t.foldl (fun o x => max o (x + 1)) (a + 1) =
      t.foldl (fun o x => max o x) a + 1 := by
  induction t generalizing a with
  | nil => simp
  | cons c t ih =>
    simp only [List.foldl_cons]
    have h : max (a + 1) (c + 1) = max a c + 1 := by omega
    rw [h, ih]

theorem foldl_max_succ (xs : List Int) (hpos : ∀ x ∈ xs, 0 ≤ x)
    (hne : xs.isEmpty = false) :
    xs.foldl (fun o x => max o (x + 1)) 0 = (pyMaxI xs).getD 0 + 1 := by
  cases xs with
  | nil => simp at hne
  | cons x t =>
    simp only [pyMaxI, Option.getD_some, List.foldl_cons]
    have h0 : max 0 (x + 1) = x + 1 := by
      have := hpos x (List.mem_cons_self x t)
      omega
    rw [h0, foldl_maxsucc_shift]

theorem pollBatches_eq_foldl (offset : Int) (batches : List (List TgUpdate)) :
    pollBatches offset batches =
      (batches.flatten).foldl (fun o u => max o (uidOf u + 1)) offset := by
  induction batches generalizing offset with
  | nil => simp [pollBatches]
  | cons b t ih =>
    show pollBatches offset (b :: t) = _
    unfold pollBatches
    simp only [List.foldl_cons]
    rw [poll_resp_true_offset]
    have hrec : List.foldl (fun off b => (poll off (.resp true b)).offset)
        (b.foldl (fun o u => max o (uidOf u + 1)) offset) t =
        pollBatches (b.foldl (fun o u => max o (uidOf u + 1)) offset) t := rfl
    rw [hrec, ih, List.flatten_cons, List.foldl_append]

/-! ## Claims C6, C9, C10: the long-poll ingestor -/

/-- C6: for any sequence of poll batches, the offset never decreases
(`offset_after >= offset_before` for every call, whatever the transport
outcome), and starting from the constructor's initial offset 0 the offset
after processing a sequence of successful batches equals
`max(update_id over all batches) + 1` (update ids being non-negative, as
Telegram ids are). -/
theorem C6_offset_monotonic_max :
    (∀ (offset : Int) (o : TgOutcome), offset ≤ (poll offset o).offset) ∧
    (∀ batches : List (List TgUpdate),
      (∀ u ∈ batches.flatten, 0 ≤ uidOf u) →
      batches.flatten.isEmpty = false →
      pollBatches 0 batches =
        (pyMaxI (batches.flatten.map uidOf)).getD 0 + 1) := by
  constructor
  · intro offset o
    cases o with
    | timeout => simp [poll]
    | httpError m => simp [poll]
    | exc m => simp [poll]
    | resp ok result =>
      cases ok with
      | false => simp [poll]
      | true =>
        rw [poll_resp_true_offset]
        exact foldl_maxStep_le_init result offset
  · intro batches hpos hne
    rw [pollBatches_eq_foldl]
    rw [← List.foldl_map (f := uidOf) (g := fun o x => max o (x + 1))]
    refine foldl_max_succ _ ?_ ?_
    · intro x hx
      rcases List.mem_map.mp hx with ⟨u, hu, rfl⟩
      exact hpos u hu
    · simpa using hne

/-- Witness for C6: the spec scenario - batches with update ids `[5, 10]`
then `[7, 12]` leave the offset at 13 (`max + 1`), not 8. -/
def c6batch1 : List TgUpdate :=
  [⟨some 5, [("text", .vStr "a")]⟩, ⟨some 10, [("text", .vStr "b")]⟩]

def c6batch2 : List TgUpdate :=
  [⟨some 7, []⟩, ⟨some 12, [("text", .vStr "c")]⟩]

theorem C6_offset_monotonic_max_witness :
    pollBatches 0 [c6batch1, c6batch2] = 13 ∧
    (0 : Int) ≤ (poll 0 (.resp true c6batch1)).offset ∧
    pollBatches 0 [c6batch1, c6batch2] =
      (pyMaxI ([c6batch1, c6batch2].flatten.map uidOf)).getD 0 + 1 :=
  ⟨rfl, C6_offset_monotonic_max.1 0 (.resp true c6batch1),
   C6_offset_monotonic_max.2 [c6batch1, c6batch2] (by decide) rfl⟩

theorem maxIds_cons (u v : PyVal) (rest : List PyVal) :
    maxIds (u :: v :: rest) =
      (match updId u, maxIds (v :: rest) with
       | some a, some b => some (max a b)
       | _, _ => Option.none) := rfl

theorem maxIds_map_vDict (msgs : List (List (String × PyVal))) (ids : List Int)
    (h : msgs.map (fun m => assocGet m "update_id") =
         ids.map (fun i => some (.vInt i))) :
    maxIds (msgs.map PyVal.vDict) = pyMaxI ids := by
  induction msgs generalizing ids with
  | nil =>
    cases ids with
    | nil => rfl
    | cons i t => simp at h
  | cons m t ih =>
    cases ids with
    | nil => simp at h
    | cons i is =>
      simp only [List.map_cons, List.cons.injEq] at h
      obtain ⟨hm, ht⟩ := h
      have hupd : updId (PyVal.vDict m) = some i := by
        unfold updId assocGetD
        dsimp only
        rw [hm]
        rfl
      cases t with
      | nil =>
        cases is with
        | nil => simpa [maxIds, pyMaxI] using hupd
        | cons j js => simp at ht
      | cons m' t' =>
        cases is with
        | nil => simp at ht
        | cons j js =>
          have ihv : maxIds (PyVal.vDict m' :: t'.map PyVal.vDict) =
              pyMaxI (j :: js) := ih (j :: js) ht
          show maxIds (PyVal.vDict m :: PyVal.vDict m' :: t'.map PyVal.vDict) =
            pyMaxI (i :: j :: js)
          rw [maxIds_cons, hupd, ihv]
          simp only [pyMaxI, List.foldl_cons, Option.some.injEq]
          exact (foldl_max_shift js i j).symm

/-- C9: persisting a non-empty batch of messages, each carrying an integer
`update_id`, and reloading the offset from the resulting inbox document
yields `max(update_id) + 1`. -/
theorem C9_save_load_roundtrip (msgs : List (List (String × PyVal)))
    (ids : List Int)
    (h : msgs.map (fun m => assocGet m "update_id") =
         ids.map (fun i => some (.vInt i)))
    (hne : msgs.isEmpty = false) :
    load_offset (.doc (save_messages msgs)) = (pyMaxI ids).map (· + 1) := by
  unfold save_messages load_offset
  dsimp only
  have hget : assocGetD [("messages", PyVal.vList (msgs.map PyVal.vDict))]
      "messages" (.vList []) = .vList (msgs.map PyVal.vDict) := rfl
  rw [hget]
  have htr : (PyVal.vList (msgs.map PyVal.vDict)).truthy = true := by
    cases msgs with
    | nil => simp at hne
    | cons m t => rfl
  rw [htr]
  simp only [Bool.not_true, Bool.false_eq_true, if_false]
  rw [maxIds_map_vDict msgs ids h]

/-- Witness for C9: three messages with ids 10, 15, 12 reload as offset 16. -/
def msgs9 : List (List (String × PyVal)) :=
  [[("update_id", .vInt 10), ("text", .vStr "h")],
   [("update_id", .vInt 15)],
   [("update_id", .vInt 12)]]

theorem C9_save_load_roundtrip_witness :
    load_offset (.doc (save_messages msgs9)) = some 16 := by
  rw [C9_save_load_roundtrip msgs9 [10, 15, 12] rfl rfl]
  rfl

/-- C10: an update with an absent or empty `message` still advances the
offset past its `update_id`, is never persisted and never triggers the
callback; a batch of only such updates returns `[]`, exactly like a
no-new-messages timeout, while consuming the ids. -/
theorem C10_empty_message_updates (offset : Int) (updates : List TgUpdate) :
    ((poll offset (.resp true updates)).messages =
      (updates.filter (fun u => !u.message.isEmpty)).map
        (fun u => assocSet u.message "update_id" (.vInt (uidOf u)))) ∧
    (∀ u ∈ updates, uidOf u < (poll offset (.resp true updates)).offset) ∧
    ((∀ u ∈ updates, u.message.isEmpty = true) →
      (poll offset (.resp true updates)).messages = [] ∧
      (poll offset (.resp true updates)).saved = Option.none ∧
      (poll offset (.resp true updates)).callbackCalled = false ∧
      (poll offset (.resp true updates)).messages =
        (poll offset .timeout).messages) := by
  have hmsg : (poll offset (.resp true updates)).messages =
      (updates.filter (fun u => !u.message.isEmpty)).map
        (fun u => assocSet u.message "update_id" (.vInt (uidOf u))) := by
    rw [poll_resp_true]
    dsimp only
    split
    · rename_i hif
      rw [List.isEmpty_iff] at hif
      exact hif.symm
    · rfl
  refine ⟨hmsg, ?_, ?_⟩
  · intro u hu
    rw [poll_resp_true_offset]
    have := foldl_maxStep_mem_le updates offset u hu
    omega
  · intro hall
    have hfil : updates.filter (fun u => !u.message.isEmpty) = [] := by
      rw [List.filter_eq_nil_iff]
      intro u hu
      simp [hall u hu]
    have hm0 : (poll offset (.resp true updates)).messages = [] := by
      rw [hmsg, hfil]
      rfl
    refine ⟨hm0, ?_, ?_, by rw [hm0]; rfl⟩
    · rw [poll_resp_true]
      dsimp only
      rw [hfil]
      rfl
    · rw [poll_resp_true]
      dsimp only
      rw [hfil]
      rfl

/-- Witness for C10: a batch of two message-less updates (ids 5 and 9) at
offset 0: nothing persisted, no callback, return `[]`, offset 10. -/
def c10updates : List TgUpdate := [⟨some 5, []⟩, ⟨some 9, []⟩]

/-! ## Claims C1-C5: the outbound executor -/

/-- A file system with no files (every send-with-path fails validation). -/
def fsEmpty : FileSys := fun _ => FileRes.notFound

/-- A configured bot token and search key, as the daemon normally runs. -/
def cfgTok : Config := { botToken := some "T", jinaApiKey := some "K" }

/-- A small successful transport outcome (status 200, 3-byte body `abc`
that parses as the empty JSON object for the purpose of `response.json()`). -/
def netOkSmall : NetOutcome := .success 200 (some 3) "abc" (some (.vDict []))

/-- The C4 failing input: a perfectly JSON-representable queue entry body
whose `format` payload field is the integer 5. -/
def reqC4 : Request :=
  ⟨"r", "POST", "", [],
   some (.vDict [("command", .vStr "send"),
     ("payload", .vDict [("chat_id", .vStr "1"), ("text", .vStr "hi"),
       ("format", .vInt 5)])])⟩

/-- C4 (code bug): `execute` is NOT total at its boundary.  The translator
runs before `execute`'s `try` block, and `_translate_send_command`
evaluates `format_type.capitalize()` on the raw payload value; with
`format: 5` this raises `AttributeError`, which escapes `execute` -
independently of the file system and of the transport (the proof is
definitional in both oracles). -/
theorem C4_execute_raises (fs : FileSys) (net : NetOutcome) :
    execute cfgTok fs net reqC4 = .error (.attributeError "capitalize") := rfl

/-- The C5 counterexample request: an empty JSON object body. -/
def c5req : Request := ⟨"e", "POST", "https://x.y/", [], some (.vDict [])⟩

/-- C5 counterexample: an empty JSON object body serializes to 2 bytes,
exceeding a configured ceiling of 1; but `if request.body:` is falsy on an
empty dict, so the size check is skipped: the network call is made and the
request succeeds with a status - no size error, contradicting the claim for
this body/ceiling. -/
theorem C5_counterexample :
    (dumps (PyVal.vDict [])).map String.utf8ByteSize = some 2 ∧
    execute { maxBodySize := 1 } fsEmpty netOkSmall c5req =
      .ok ⟨⟨some 200, some (.vDict []), Option.none⟩, true⟩ :=
  ⟨rfl, rfl⟩

/-- C5 (amended): for every request that is not unified-translated, whose
body is present and truthy (e.g. a non-empty JSON object) and whose
`json.dumps` byte length exceeds the configured ceiling, `execute` returns
status absent with an error message carrying both the measured size and the
limit, and the network call is never reached.  (The original claim fails
only for falsy bodies, which `if request.body:` exempts from the check -
see the counterexample.) -/
theorem C5_body_size_shortcircuit (cfg : Config) (fs : FileSys)
    (net : NetOutcome) (req : Request) (b : PyVal) (s : String)
    (htr : translate_unified_format cfg fs req = .ok Option.none)
    (hb : req.body = some b) (ht : b.truthy = true) (hd : dumps b = some s)
    (hsz : (s.utf8ByteSize : Int) > cfg.maxBodySize) :
    execute cfg fs net req =
      .ok ⟨⟨Option.none, Option.none,
        some (bodySizeErr s.utf8ByteSize cfg.maxBodySize)⟩, false⟩ ∧
    ∃ pre mid, bodySizeErr s.utf8ByteSize cfg.maxBodySize =
      pre ++ toString (s.utf8ByteSize : Int) ++ mid ++
        toString cfg.maxBodySize := by
  constructor
  · have hbs : bodySizeCheck cfg (some b) =
        .ok (some ⟨⟨Option.none, Option.none,
          some (bodySizeErr s.utf8ByteSize cfg.maxBodySize)⟩, false⟩) := by
      simp [bodySizeCheck, ht, hd, hsz]
    unfold execute
    rw [htr]
    dsimp only
    rw [hb, hbs]
  · exact ⟨"Body size ", " exceeds limit ", rfl⟩

/-- The C5 witness request: body `{"a": "bcdef"}`, 14 bytes serialized. -/
def c5wreq : Request :=
  ⟨"b", "POST", "https://x.y/", [], some (.vDict [("a", .vStr "bcdef")])⟩

theorem C5_body_size_shortcircuit_witness :
    execute { maxBodySize := 3 } fsEmpty netOkSmall c5wreq =
      .ok ⟨⟨Option.none, Option.none,
        some "Body size 14 exceeds limit 3"⟩, false⟩ :=
  ((C5_body_size_shortcircuit { maxBodySize := 3 } fsEmpty netOkSmall c5wreq
      (.vDict [("a", .vStr "bcdef")]) "\x7b\"a\": \"bcdef\"\x7d"
      rfl rfl rfl rfl (by decide)).1).trans rfl

/-- The C2 counterexample request: a raw (non-unified) request whose URL
matches no allow-list pattern. -/
def c2req : Request := ⟨"v", "GET", "https://evil.com/api", [], Option.none⟩

/-- C2 counterexample: the Rules Validator rejects the URL (no pattern
matches), yet `execute` runs the request and returns a success Response
(status present, error absent) - not the validator's reason with status
absent, as the claim requires.  The code's own comment says "URL validation
removed". -/
theorem C2_counterexample :
    validate_url [] "https://evil.com/api" =
      ⟨false, "URL does not match allowed patterns"⟩ ∧
    execute { } fsEmpty netOkSmall c2req =
      .ok ⟨⟨some 200, some (.vDict []), Option.none⟩, true⟩ :=
  ⟨rfl, rfl⟩

theorem execFinish_networkCalled (cfg : Config) (oc : PyVal) (code : Int)
    (text : String) (parsed : Option PyVal) :
    (execFinish cfg oc code text parsed).networkCalled = true := by
  unfold execFinish
  split
  · rfl
  · split
    · split <;> rfl
    · split
      · split <;> rfl
      · rfl

theorem executeNet_networkCalled (cfg : Config) (oc : PyVal)
    (nc : NetOutcome) : (executeNet cfg oc nc).networkCalled = true := by
  cases nc with
  | timeout m => rfl
  | httpError m => rfl
  | exc m => rfl
  | success code clen text parsed =>
    unfold executeNet
    cases clen with
    | none => exact execFinish_networkCalled cfg oc code text parsed
    | some L =>
      dsimp only
      split
      · rfl
      · exact execFinish_networkCalled cfg oc code text parsed

theorem execFinish_shapes (cfg : Config) (oc : PyVal) (code : Int)
    (text : String) (parsed : Option PyVal) :
    (∃ b, execFinish cfg oc code text parsed =
      ⟨⟨some code, some b, Option.none⟩, true⟩) ∨
    (∃ m, execFinish cfg oc code text parsed =
      ⟨⟨Option.none, Option.none, some m⟩, true⟩) ∨
    execFinish cfg oc code text parsed =
      ⟨⟨some code, Option.none, Option.none⟩, true⟩ := by
  unfold execFinish
  split
  · exact Or.inl ⟨_, rfl⟩
  · split
    · split
      · exact Or.inl ⟨_, rfl⟩
      · exact Or.inr (Or.inl ⟨_, rfl⟩)
    · split
      · split
        · exact Or.inl ⟨_, rfl⟩
        · exact Or.inr (Or.inl ⟨_, rfl⟩)
      · exact Or.inr (Or.inr rfl)

theorem executeNet_disj (cfg : Config) (oc : PyVal) (nc : NetOutcome)
    (mB : Int) :
    (∃ n, executeNet cfg oc nc =
      ⟨⟨Option.none, Option.none, some (bodySizeErr n mB)⟩, false⟩) ∨
    (∃ m, executeNet cfg oc nc =
      ⟨⟨Option.none, Option.none, some m⟩, true⟩) ∨
    (∃ c L, executeNet cfg oc nc =
      ⟨⟨some c, Option.none, some (respSizeErr L cfg.maxResponseSize)⟩, true⟩) ∨
    (∃ c b, executeNet cfg oc nc =
      ⟨⟨some c, some b, Option.none⟩, true⟩) ∨
    (∃ c, executeNet cfg oc nc =
      ⟨⟨some c, Option.none, Option.none⟩, true⟩) := by
  cases nc with
  | timeout m => exact Or.inr (Or.inl ⟨_, rfl⟩)
  | httpError m => exact Or.inr (Or.inl ⟨_, rfl⟩)
  | exc m => exact Or.inr (Or.inl ⟨_, rfl⟩)
  | success code clen text parsed =>
    have hfin : ∀ hEq : executeNet cfg oc (.success code clen text parsed) =
        execFinish cfg oc code text parsed, _ := fun hEq => hEq
    have step : ∀ (hE : executeNet cfg oc (.success code clen text parsed) =
        execFinish cfg oc code text parsed),
        (∃ n, executeNet cfg oc (.success code clen text parsed) =
          ⟨⟨Option.none, Option.none, some (bodySizeErr n mB)⟩, false⟩) ∨
        (∃ m, executeNet cfg oc (.success code clen text parsed) =
          ⟨⟨Option.none, Option.none, some m⟩, true⟩) ∨
        (∃ c L, executeNet cfg oc (.success code clen text parsed) =
          ⟨⟨some c, Option.none, some (respSizeErr L cfg.maxResponseSize)⟩, true⟩) ∨
        (∃ c b, executeNet cfg oc (.success code clen text parsed) =
          ⟨⟨some c, some b, Option.none⟩, true⟩) ∨
        (∃ c, executeNet cfg oc (.success code clen text parsed) =
          ⟨⟨some c, Option.none, Option.none⟩, true⟩) := by
      intro hE
      rcases execFinish_shapes cfg oc code text parsed with ⟨b, hB⟩ | ⟨m, hM⟩ | hQ
      · exact Or.inr (Or.inr (Or.inr (Or.inl ⟨code, b, hE.trans hB⟩)))
      · exact Or.inr (Or.inl ⟨m, hE.trans hM⟩)
      · exact Or.inr (Or.inr (Or.inr (Or.inr ⟨code, hE.trans hQ⟩)))
    cases clen with
    | none => exact step rfl
    | some L =>
      by_cases hL : L > cfg.maxResponseSize
      · refine Or.inr (Or.inr (Or.inl ⟨code, L, ?_⟩))
        unfold executeNet
        dsimp only
        rw [if_pos hL]
      · refine step ?_
        unfold executeNet
        dsimp only
        rw [if_neg hL]

theorem bodySizeCheck_some (cfg : Config) (body : Option PyVal)
    (out : ExecOut) (h : bodySizeCheck cfg body = .ok (some out)) :
    ∃ n, out = ⟨⟨Option.none, Option.none,
      some (bodySizeErr n cfg.maxBodySize)⟩, false⟩ := by
  cases body with
  | none => exact absurd h (by simp [bodySizeCheck])
  | some b =>
    unfold bodySizeCheck at h
    dsimp only at h
    repeat' (split at h)
    all_goals first
      | (injection h with h2; injection h2 with h3; exact ⟨_, h3.symm⟩)
      | simp at h

/-- Every `.ok` result of `execute` has one of five shapes: the pre-send
body-size short-circuit (network not called), a transport/in-`try` error
(status and body absent), the response-size rejection (status AND error
present), a success with a body, or a success with an empty body. -/
theorem execute_ok_shapes (cfg : Config) (fs : FileSys) (net : NetOutcome)
    (req : Request) (out : ExecOut)
    (h : execute cfg fs net req = .ok out) :
    (∃ n, out = ⟨⟨Option.none, Option.none,
        some (bodySizeErr n cfg.maxBodySize)⟩, false⟩) ∨
    (∃ m, out = ⟨⟨Option.none, Option.none, some m⟩, true⟩) ∨
    (∃ c L, out = ⟨⟨some c, Option.none,
        some (respSizeErr L cfg.maxResponseSize)⟩, true⟩) ∨
    (∃ c b, out = ⟨⟨some c, some b, Option.none⟩, true⟩) ∨
    (∃ c, out = ⟨⟨some c, Option.none, Option.none⟩, true⟩) := by
  unfold execute at h
  cases htr : translate_unified_format cfg fs req with
  | error e => rw [htr] at h; cases h
  | ok unified =>
    rw [htr] at h
    dsimp only at h
    cases unified with
    | none =>
      dsimp only at h
      cases hbs : bodySizeCheck cfg req.body with
      | error e => rw [hbs] at h; cases h
      | ok so =>
        rw [hbs] at h
        cases so with
        | some o =>
          dsimp only at h
          injection h with h2
          subst h2
          rcases bodySizeCheck_some cfg _ _ hbs with ⟨n, rfl⟩
          exact Or.inl ⟨n, rfl⟩
        | none =>
          dsimp only at h
          injection h with h2
          subst h2
          exact executeNet_disj cfg _ _ cfg.maxBodySize
    | some rfv =>
      dsimp only at h
      cases hbs : bodySizeCheck cfg rfv.1.body with
      | error e => rw [hbs] at h; cases h
      | ok so =>
        rw [hbs] at h
        cases so with
        | some o =>
          dsimp only at h
          injection h with h2
          subst h2
          rcases bodySizeCheck_some cfg _ _ hbs with ⟨n, rfl⟩
          exact Or.inl ⟨n, rfl⟩
        | none =>
          dsimp only at h
          injection h with h2
          subst h2
          exact executeNet_disj cfg _ _ cfg.maxBodySize

/-- The C1 scenario: a raw request whose transport success reports a
content-length of 2000000 bytes, beyond the default 1048576 ceiling. -/
def c1req : Request := ⟨"w", "GET", "https://x.y/", [], Option.none⟩

def netBigResp : NetOutcome := .success 200 (some 2000000) "abc" (some (.vDict []))

def c1out : ExecOut :=
  ⟨⟨some 200, Option.none, some (respSizeErr 2000000 1048576)⟩, true⟩

/-- C1 counterexample: the response-size-limit branch returns a Response
with `status` (200) and `error` both present, so "exactly one of (`status`
present) or (`error` present)" fails on this reachable output. -/
theorem C1_counterexample :
    execute { } fsEmpty netBigResp c1req = .ok c1out ∧
    c1out.resp.status.isSome = true ∧ c1out.resp.error.isSome = true ∧
    respSizeErr 2000000 1048576 =
      "Response size 2000000 exceeds limit 1048576" :=
  ⟨rfl, rfl, rfl, rfl⟩

/-- C1 (amended): for every Response produced by `execute`, at least one of
`status`/`error` is present; a body entails a clean success (status
present, no error); `status` and `error` are both present exactly on the
response-size rejection, whose error is the response-size message; and a
Response with `status` absent that was produced without reaching the
network call carries the body-size short-circuit error. -/
theorem C1_response_invariant (cfg : Config) (fs : FileSys) (net : NetOutcome)
    (req : Request) (out : ExecOut) (h : execute cfg fs net req = .ok out) :
    (out.resp.status.isSome ∨ out.resp.error.isSome) ∧
    (out.resp.body.isSome → out.resp.status.isSome ∧
      out.resp.error = Option.none) ∧
    (out.resp.status.isSome → out.resp.error.isSome →
      out.resp.body = Option.none ∧
      ∃ L, out.resp.error = some (respSizeErr L cfg.maxResponseSize)) ∧
    (out.resp.status = Option.none → out.networkCalled = false →
      out.resp.error.isSome →
      ∃ n, out.resp.error = some (bodySizeErr n cfg.maxBodySize)) := by
  rcases execute_ok_shapes cfg fs net req out h with
    ⟨n, rfl⟩ | ⟨m, rfl⟩ | ⟨c, L, rfl⟩ | ⟨c, b, rfl⟩ | ⟨c, rfl⟩
  · exact ⟨Or.inr rfl, by simp, by simp, fun _ _ _ => ⟨n, rfl⟩⟩
  · exact ⟨Or.inr rfl, by simp, by simp, by simp⟩
  · exact ⟨Or.inl rfl, by simp, fun _ _ => ⟨rfl, L, rfl⟩, by simp⟩
  · exact ⟨Or.inl rfl, fun _ => ⟨rfl, rfl⟩, by simp, by simp⟩
  · exact ⟨Or.inl rfl, by simp, by simp, by simp⟩

/-- Witness for C1 (amended), at the response-size scenario. -/
theorem C1_response_invariant_witness :
    (c1out.resp.status.isSome ∨ c1out.resp.error.isSome) ∧
    (c1out.resp.body.isSome → c1out.resp.status.isSome ∧
      c1out.resp.error = Option.none) ∧
    (c1out.resp.status.isSome → c1out.resp.error.isSome →
      c1out.resp.body = Option.none ∧
      ∃ L, c1out.resp.error =
        some (respSizeErr L ({ } : Config).maxResponseSize)) ∧
    (c1out.resp.status = Option.none → c1out.networkCalled = false →
      c1out.resp.error.isSome →
      ∃ n, c1out.resp.error =
        some (bodySizeErr n ({ } : Config).maxBodySize)) :=
  C1_response_invariant { } fsEmpty netBigResp c1req c1out rfl

/-- The Response `execute` produces for the C2 scenario. -/
def c2out : ExecOut := ⟨⟨some 200, some (.vDict []), Option.none⟩, true⟩

/-- C2 (amended): the executor never consults the Rules Validator.  A
request that is not in the unified command format is never rejected with
the validator's reason, even when `validate_url` rejects its URL: whenever
`execute` returns a Response for it, either the network call was reached
(the result committed to the transport outcome) or the request was
short-circuited by the body-size check, whose error is the body-size
message - never a validation message. -/
theorem C2_no_url_validation (cfg : Config) (fs : FileSys) (net : NetOutcome)
    (req : Request) (patterns : List (String → Bool)) (out : ExecOut)
    (htr : translate_unified_format cfg fs req = .ok Option.none)
    (hrej : (validate_url patterns req.url).allowed = false)
    (h : execute cfg fs net req = .ok out) :
    out.networkCalled = true ∨
      ∃ n, out.resp.error = some (bodySizeErr n cfg.maxBodySize) := by
  unfold execute at h
  rw [htr] at h
  dsimp only at h
  cases hbs : bodySizeCheck cfg req.body with
  | error e => rw [hbs] at h; cases h
  | ok so =>
    rw [hbs] at h
    cases so with
    | some o =>
      dsimp only at h
      injection h with h2
      subst h2
      rcases bodySizeCheck_some cfg _ _ hbs with ⟨n, rfl⟩
      exact Or.inr ⟨n, rfl⟩
    | none =>
      dsimp only at h
      injection h with h2
      subst h2
      exact Or.inl (executeNet_networkCalled cfg _ _)

theorem C2_no_url_validation_witness :
    c2out.networkCalled = true ∨
      ∃ n, c2out.resp.error = some (bodySizeErr n ({ } : Config).maxBodySize) :=
  C2_no_url_validation { } fsEmpty netOkSmall c2req [] c2out rfl rfl rfl

/-! ## Claim C3: the daemon pipeline on failed send translations -/

/-- The C3 scenario entry: a unified `send` whose `payload.path` does not
exist on the file system. -/
def entryC3 : List (String × PyVal) :=
  [("id", .vStr "s1"),
   ("body", .vDict [("command", .vStr "send"),
     ("payload", .vDict [("chat_id", .vStr "42"),
       ("path", .vStr "/nonexistent/file.pdf")])]),
   ("status", .vStr "pending")]

/-- C3 counterexample: processing the failed-send entry does NOT leave it
untouched - the entry's status becomes `failed` and a response keyed by
`s1` is written - contradicting "status untouched and no response
written". -/
theorem C3_counterexample :
    ∃ st : DaemonState,
      process_requests cfgTok fsEmpty (fun _ => netOkSmall)
        ⟨[entryC3], []⟩ [entryC3] = .ok st ∧
      st.requests.map (fun r => assocGetD r "status" .vNone) =
        [.vStr "failed"] ∧
      st.responses.map Prod.fst = [.vStr "s1"] :=
  ⟨_, rfl, rfl, rfl⟩

/-- C3 (amended): a queue entry whose `send` translation fails validation
is not left untouched.  `execute` falls through to the raw-request path;
the entry has no `url`, the HTTP client rejects the empty URL before any
traffic (`UnsupportedProtocol`, an `httpx.HTTPError`), and the pipeline
therefore marks the entry `failed` and records an error response under its
id in the response file. -/
theorem C3_failed_send_marks_failed (cfg : Config) (fs : FileSys)
    (nets : Nat → NetOutcome) (st : DaemonState)
    (entry : List (String × PyVal)) (rid : String) (hrid : rid ≠ "")
    (hid : assocGetD entry "id" .vNone = .vStr rid)
    (htr : translate_unified_format cfg fs (requestOfEntry entry) =
      .ok Option.none)
    (hurl : (requestOfEntry entry).url = "")
    (hbs : bodySizeCheck cfg (requestOfEntry entry).body = .ok Option.none) :
    process_requests cfg fs nets st [entry] =
      .ok { requests := update_request_status st.requests (.vStr rid) "failed",
            responses := respUpdate st.responses
              [(.vStr rid, respRecord ⟨Option.none, Option.none,
                some ("HTTP error: Request URL is missing an 'http://' or 'https://' protocol.")⟩)] } := by
  have hex : execute cfg fs (nets 0) (requestOfEntry entry) =
      .ok ⟨⟨Option.none, Option.none,
        some ("HTTP error: Request URL is missing an 'http://' or 'https://' protocol.")⟩, true⟩ := by
    unfold execute
    rw [htr]
    dsimp only
    rw [hurl]
    have hc : strContains "" "<token>" = false := rfl
    rw [hc, Bool.and_false]
    rw [hbs]
    rfl
  have htrue : (PyVal.vStr rid).truthy = true := by
    show (rid != "") = true
    simpa using hrid
  unfold process_requests processAux
  rw [hid]
  simp only [htrue, Bool.not_true, Bool.false_eq_true, if_false, hex]
  rfl

/-- Witness for C3 (amended): the concrete nonexistent-path entry. -/
theorem C3_failed_send_marks_failed_witness :
    process_requests cfgTok fsEmpty (fun _ => netOkSmall)
      ⟨[entryC3], []⟩ [entryC3] =
      .ok { requests := update_request_status [entryC3] (.vStr "s1") "failed",
            responses := respUpdate []
              [(.vStr "s1", respRecord ⟨Option.none, Option.none,
                some ("HTTP error: Request URL is missing an 'http://' or 'https://' protocol.")⟩)] } :=
  C3_failed_send_marks_failed cfgTok fsEmpty (fun _ => netOkSmall)
    ⟨[entryC3], []⟩ entryC3 "s1" (by decide) rfl rfl rfl rfl

/-! ## Claim C7: the queue watcher -/

/-- A queue entry used in the watcher scenarios. -/
def c7entry : List (String × PyVal) := [("id", .vStr "q1"), ("status", .vStr "pending")]

/-- C7 counterexample: a modification event whose stat timestamp (3) has
NOT advanced past the recorded one (5) is still processed - the file is
re-read and the callback fires with the pending entry - refuting the
claim's "events whose timestamp has not advanced are ignored" (the code
ignores only an unchanged, i.e. equal, timestamp). -/
theorem C7_counterexample :
    on_modified "/data/requests.json" ⟨5⟩ ⟨false, "/data/requests.json"⟩
      (some 3) (.doc [c7entry]) = (⟨3⟩, some [c7entry]) ∧ (3 : Int) < 5 :=
  ⟨rfl, by decide⟩

/-- C7 (amended): deduplication is by timestamp equality, not advancement:
a non-directory event on the queue file path with a successful stat is
ignored exactly when the file's mtime equals the recorded one; whenever it
differs - advanced or regressed - the queue file is re-read and the
callback receives exactly the entries with status `pending` when at least
one exists, and does not fire otherwise. -/
theorem C7_on_modified_dedup (rf : String) (st : WatchState) (ev : FsEvent)
    (m : Int) (rs : List (List (String × PyVal)))
    (hdir : ev.isDirectory = false) (hpath : ev.srcPath = rf) :
    (m = st.lastMtime →
       on_modified rf st ev (some m) (.doc rs) = (st, Option.none)) ∧
    (m ≠ st.lastMtime →
       on_modified rf st ev (some m) (.doc rs) =
         (⟨m⟩,
          if (rs.filter (fun r =>
                assocGetD r "status" .vNone == PyVal.vStr "pending")).isEmpty
          then Option.none
          else some (rs.filter (fun r =>
                assocGetD r "status" .vNone == PyVal.vStr "pending")))) := by
  constructor
  · intro he
    unfold on_modified
    simp [hdir, he]
  · intro hne
    unfold on_modified
    have hm : (m == st.lastMtime) = false := by
      rw [beq_eq_false_iff_ne]
      exact hne
    simp only [hdir, Bool.false_eq_true, if_false, hm, hpath, beq_self_eq_true,
      if_true]
    unfold read_requests
    dsimp only
    cases hP : (rs.filter (fun r =>
        assocGetD r "status" .vNone == PyVal.vStr "pending")).isEmpty <;>
      simp [hP]

/-- Witness for C7: the same state and file; an equal timestamp is ignored,
a changed one fires the callback with the pending entry. -/
theorem C7_on_modified_dedup_witness :
    on_modified "/q" ⟨5⟩ ⟨false, "/q"⟩ (some 5) (.doc [c7entry]) =
      (⟨5⟩, Option.none) ∧
    on_modified "/q" ⟨5⟩ ⟨false, "/q"⟩ (some 7) (.doc [c7entry]) =
      (⟨7⟩, some [c7entry]) := by
  constructor
  · exact (C7_on_modified_dedup "/q" ⟨5⟩ ⟨false, "/q"⟩ 5 [c7entry] rfl rfl).1 rfl
  · have h := (C7_on_modified_dedup "/q" ⟨5⟩ ⟨false, "/q"⟩ 7 [c7entry] rfl rfl).2
      (by decide)
    rw [h]
    rfl

/-! ## Claim C8: the search sanitizer -/

theorem pyTake_length_le (s : String) (n : Nat) : (pyTake s n).length ≤ n := by
  show (s.toList.take n).length ≤ n
  simp

theorem assocSetS_fst (kvs : List (String × String)) (k v : String) :
    (assocSetS kvs k v).map Prod.fst =
      (if k ∈ kvs.map Prod.fst then kvs.map Prod.fst
       else kvs.map Prod.fst ++ [k]) := by
  induction kvs with
  | nil => simp [assocSetS]
  | cons p t ih =>
    obtain ⟨k', v'⟩ := p
    by_cases hk : k' = k
    · subst hk
      simp [assocSetS]
    · have hbeq : (k' == k) = false := by simp [hk]
      rw [show assocSetS ((k', v') :: t) k v = (k', v') :: assocSetS t k v from by
        simp [assocSetS, hbeq]]
      simp only [List.map_cons, ih, List.mem_cons]
      by_cases hm : k ∈ t.map Prod.fst
      · simp [hm, Ne.symm hk]
      · simp [hm, Ne.symm hk]

theorem scanLine_nodup (st : ScanState) (line : String)
    (h : (st.url_map.map Prod.fst).Nodup) :
    ((scanLine st line).url_map.map Prod.fst).Nodup := by
  unfold scanLine
  dsimp only
  set st1 := (match titleMatch line with
    | some t => { st with current_title := pyStrip t }
    | Option.none => st) with hst1
  have h1 : (st1.url_map.map Prod.fst).Nodup := by
    rw [hst1]
    cases titleMatch line <;> simpa using h
  cases urlSearch line with
  | none => exact h1
  | some url =>
    dsimp only
    by_cases hc : (st1.current_title != "") = true
    · rw [if_pos hc]
      dsimp only
      rw [assocSetS_fst]
      split
      · exact h1
      · rename_i hnotin
        simp [List.nodup_append, h1, hnotin]
    · rw [if_neg hc]
      exact h1

theorem scanLines_nodup (lines : List String) :
    ((scanLines lines).url_map.map Prod.fst).Nodup := by
  have aux : ∀ (ls : List String) (st : ScanState),
      (st.url_map.map Prod.fst).Nodup →
      ((ls.foldl scanLine st).url_map.map Prod.fst).Nodup := by
    intro ls
    induction ls with
    | nil => intro st h; exact h
    | cons l t ih => intro st h; exact ih _ (scanLine_nodup st l h)
  exact aux lines ⟨"", []⟩ (by simp)

/-- The C8 counterexample input: two title/URL-Source pairings that share
one URL, sanitized under a 10-character content ceiling. -/
def c8input : String :=
  "[1] Title: A\nURL Source: http://a/x\n[2] Title: B\nURL Source: http://a/x"

def cfg8 : Config := { maxSearchContentLength := 10 }

/-- C8 counterexample: the input contains two title/`URL Source:` pairings
(both titles and both URL lines match), yet only ONE numbered pair is
emitted (the shared URL key is overwritten, the later title wins), and the
emitted content is 23 characters long - exceeding the configured maximum
of 10 (the `\n\n[truncated]` marker is appended beyond the cut). -/
theorem C8_counterexample :
    titleMatch "[1] Title: A" = some "A" ∧
    urlSearch "URL Source: http://a/x" = some "http://a/x" ∧
    titleMatch "[2] Title: B" = some "B" ∧
    (scanLines (splitCh '\n' c8input)).url_map = [("http://a/x", "B")] ∧
    sanitize_search_response cfg8 c8input =
      .vDict [("ok", .vBool true),
              ("result", .vDict
                [("content", .vStr "1. B\n   ht\n\n[truncated]"),
                 ("type", .vStr "search"),
                 ("urls", .vList [.vStr "http://a/x"])])] ∧
    ("1. B\n   ht\n\n[truncated]" : String).length = 23 ∧
    cfg8.maxSearchContentLength = 10 :=
  ⟨rfl, rfl, rfl, rfl, rfl, rfl, rfl⟩

/-- C8 (amended): the sanitizer emits one numbered title+URL pair per
DISTINCT matched URL (duplicate URLs overwrite the stored title, keeping
first-seen position), falls back to the first `max_length` characters of
the raw text when no pair is found, and its output exceeds the configured
maximum length by at most the 13-character truncation marker, which is
appended exactly when the rendered content was cut. -/
theorem C8_sanitize_search_props (cfg : Config) (body : String) :
    ((scanLines (splitCh '\n' body)).url_map.map Prod.fst).Nodup ∧
    (∃ C : String,
      sanitize_search_response cfg body =
        .vDict [("ok", .vBool true),
                ("result", .vDict
                  [("content", .vStr C), ("type", .vStr "search"),
                   ("urls", .vList ((scanLines (splitCh '\n' body)).url_map.map
                      (fun p => PyVal.vStr p.1)))])] ∧
      C.length ≤ cfg.maxSearchContentLength + 13 ∧
      (C.length ≤ cfg.maxSearchContentLength ∨
        ∃ pre : String, cfg.maxSearchContentLength < pre.length ∧
          C = pyTake pre cfg.maxSearchContentLength ++ "\n\n[truncated]") ∧
      ((scanLines (splitCh '\n' body)).url_map = [] →
        C = pyTake body cfg.maxSearchContentLength)) := by
  refine ⟨scanLines_nodup _, ?_⟩
  unfold sanitize_search_response
  dsimp only
  set ml := cfg.maxSearchContentLength with hml
  set st := scanLines (splitCh '\n' body) with hst
  set out0 := renderPairs st.url_map with hout0
  set output := (if out0.isEmpty then [pyTake body ml] else out0) with houtput
  set pre := joinLines "\n" output with hpre
  by_cases hb : pre.length > ml
  · refine ⟨pyTake pre ml ++ "\n\n[truncated]", ?_, ?_, ?_, ?_⟩
    · rw [if_pos hb]
    · have h1 := pyTake_length_le pre ml
      have h2 : ("\n\n[truncated]" : String).length = 13 := rfl
      rw [String.length_append, h2]
      omega
    · exact Or.inr ⟨pre, hb, rfl⟩
    · intro hmap
      exfalso
      have hout0e : out0 = [] := by rw [hout0, hmap]; rfl
      have hpe : pre = pyTake body ml := by
        rw [hpre, houtput, hout0e]
        rfl
      rw [hpe] at hb
      have := pyTake_length_le body ml
      omega
  · refine ⟨pre, ?_, ?_, Or.inl (Nat.le_of_not_lt hb), ?_⟩
    · rw [if_neg hb]
    · have := Nat.le_of_not_lt hb
      omega
    · intro hmap
      have hout0e : out0 = [] := by rw [hout0, hmap]; rfl
      rw [hpre, houtput, hout0e]
      rfl

/-- Witness for C8 (amended): the duplicate-URL map of the counterexample
input indeed has pairwise-distinct URL keys. -/
theorem C8_sanitize_search_props_witness :
    ((scanLines (splitCh '\n' c8input)).url_map.map Prod.fst).Nodup :=
  (C8_sanitize_search_props cfg8 c8input).1

theorem C10_empty_message_updates_witness :
    (poll 0 (.resp true c10updates)).messages = [] ∧
    (poll 0 (.resp true c10updates)).saved = Option.none ∧
    (poll 0 (.resp true c10updates)).callbackCalled = false ∧
    (poll 0 (.resp true c10updates)).offset = 10 ∧
    uidOf ⟨some 5, []⟩ < (poll 0 (.resp true c10updates)).offset :=
  ⟨((C10_empty_message_updates 0 c10updates).2.2 (by decide)).1,
   ((C10_empty_message_updates 0 c10updates).2.2 (by decide)).2.1,
   ((C10_empty_message_updates 0 c10updates).2.2 (by decide)).2.2.1,
   rfl,
   (C10_empty_message_updates 0 c10updates).2.1 ⟨some 5, []⟩
     (by simp [c10updates])⟩

end OpsProxy
